import Mathlib

/-!
A verification development for the QuickPick marketplace repository.

The repository is a React-Native client over a hosted Postgres backend.
The logic verified here is shallowly embedded from:

* `src/services/dealService.ts` — `DealService.createDeal`,
  `DealService.updateDealStatus`, `DealService.updateDealQuantity`,
  `OrderService.createOrder`;
* the vendor-deals listing screen (`loadDeals`), which lazily marks
  past-expiry active deals as expired;
* the SQL migrations — the `deals` table check constraints, the
  `get_nearby_deals(user_lat, user_lon, radius_km)` stored procedure and
  the `calculate_distance` haversine function;
* `src/services/otpService.ts` — `OTPService.sendOTP`,
  `OTPService.verifyOTP`.

Timestamps are modelled as integers (milliseconds), monetary amounts and
coordinates as rationals, and identifiers as naturals.  Text columns that
no verified property mentions (item names, image URLs, descriptions,
units) are omitted from the records.  The haversine function itself is
modelled over the reals in the `Haversine` namespace below.
-/

namespace QuickPick

/-- Deal lifecycle status: the `deals.status` column is constrained to
`active`, `sold` or `expired` by the schema migration. -/
inductive DealStatus
  | active
  | sold
  | expired
deriving DecidableEq, Repr

/-- Order status: the `orders.status` column is constrained to
`reserved`, `collected`, `missed` or `expired`. -/
inductive OrderStatus
  | reserved
  | collected
  | missed
  | expired
deriving DecidableEq, Repr

/-- A row of the `deals` table, restricted to the columns the verified
properties mention.  `expiry_time` and `created_at` are millisecond
timestamps. -/
structure DealRec where
  id : ℕ
  vendor_id : ℕ
  quantity : ℤ
  remaining_quantity : ℤ
  discount_percent : ℚ
  original_price : ℚ
  discounted_price : ℚ
  expiry_time : ℤ
  created_at : ℤ
  latitude : ℚ
  longitude : ℚ
  status : DealStatus
deriving DecidableEq, Repr

/-- A row of the `orders` table (columns used by the verified
properties). -/
structure OrderRec where
  id : ℕ
  buyer_id : ℕ
  deal_id : ℕ
  status : OrderStatus
deriving DecidableEq, Repr

/-- The inventory invariant stated by the spec and enforced by the
`remaining_quantity_check` constraint of the migration:
`0 ≤ remaining_quantity ≤ quantity`. -/
def DealInvariant (d : DealRec) : Prop :=
  0 ≤ d.remaining_quantity ∧ d.remaining_quantity ≤ d.quantity

instance (d : DealRec) : Decidable (DealInvariant d) :=
  inferInstanceAs (Decidable (_ ∧ _))

/-- Input to `DealService.createDeal` (fields the verified properties
mention). -/
structure CreateDealData where
  quantity : ℤ
  discount_percent : ℚ
  original_price : ℚ
  expiry_time : ℤ
  latitude : ℚ
  longitude : ℚ
deriving DecidableEq, Repr

/-- The row built by `DealService.createDeal`: `remaining_quantity` is
initialised to the total `quantity`, and
`discounted_price = original_price * (1 - discount_percent / 100)`
(line 111 of `dealService.ts`).  The new row's status takes the schema
default `active`. -/
def createDealRow (vendorId newId : ℕ) (now : ℤ) (data : CreateDealData) : DealRec :=
  { id := newId
    vendor_id := vendorId
    quantity := data.quantity
    remaining_quantity := data.quantity
    discount_percent := data.discount_percent
    original_price := data.original_price
    discounted_price := data.original_price * (1 - data.discount_percent / 100)
    expiry_time := data.expiry_time
    created_at := now
    latitude := data.latitude
    longitude := data.longitude
    status := DealStatus.active }

/-- The check constraints the schema places on a `deals` row
(`quantity > 0`, `0 ≤ discount_percent ≤ 100`, positive prices, and the
`remaining_quantity_check` constraint added in the later migration). -/
def dealChecks (d : DealRec) : Prop :=
  0 < d.quantity ∧ 0 ≤ d.discount_percent ∧ d.discount_percent ≤ 100 ∧
    0 < d.original_price ∧ 0 < d.discounted_price ∧
    0 ≤ d.remaining_quantity ∧ d.remaining_quantity ≤ d.quantity

/-- `DealService.updateDealStatus`: the update is keyed on both the deal
id and `vendor_id = user.id`, so a non-owner's call matches no row and
surfaces as a failure with the store unchanged. -/
def updateDealStatus (userId : ℕ) (d : DealRec) (s : DealStatus) :
    Except String DealRec :=
  if d.vendor_id ≠ userId then Except.error "Failed to update deal status"
  else Except.ok { d with status := s }

/-- `DealService.updateDealQuantity`: after the ownership check, the
requested remaining quantity is validated to lie in `[0, quantity]`;
on success the row is updated with
`status = remainingQuantity === 0 ? 'sold' : 'active'`. -/
def updateDealQuantity (userId : ℕ) (d : DealRec) (rq : ℤ) :
    Except String DealRec :=
  if d.vendor_id ≠ userId then
    Except.error "You can only update your own deals"
  else if rq < 0 ∨ rq > d.quantity then
    Except.error ("Remaining quantity must be between 0 and " ++ toString d.quantity)
  else
    Except.ok { d with
      remaining_quantity := rq
      status := if rq = 0 then DealStatus.sold else DealStatus.active }

/-- One step of the lazy expiry sweep in the vendor listing's
`loadDeals`: an active deal whose `expiry_time` is strictly in the past
is marked expired through `DealService.updateDealStatus` (invoked by the
owning vendor, so the ownership check passes). -/
def sweepDeal (now : ℤ) (d : DealRec) : DealRec :=
  if d.status = DealStatus.active ∧ d.expiry_time < now then
    match updateDealStatus d.vendor_id d DealStatus.expired with
    | Except.ok d2 => d2
    | Except.error _ => d
  else d

/-- The mutating operations on a single deal row reachable from the
client: an explicit status update, a vendor quantity edit, and the lazy
expiry sweep. -/
inductive DealOp
  | updateStatus (userId : ℕ) (s : DealStatus)
  | updateQuantity (userId : ℕ) (rq : ℤ)
  | sweep (now : ℤ)
deriving DecidableEq, Repr

/-- The deal row stored after a `DealOp`; a failed service call leaves
the row unchanged. -/
def applyDealOp (op : DealOp) (d : DealRec) : DealRec :=
  match op with
  | DealOp.updateStatus u s =>
    match updateDealStatus u d s with
    | Except.ok d2 => d2
    | Except.error _ => d
  | DealOp.updateQuantity u rq =>
    match updateDealQuantity u d rq with
    | Except.ok d2 => d2
    | Except.error _ => d
  | DealOp.sweep now => sweepDeal now d

/-- Unfolding `applyDealOp` for a status update: the row changes exactly
when the caller owns the deal. -/
theorem applyDealOp_updateStatus (u : ℕ) (d : DealRec) (s : DealStatus) :
    applyDealOp (DealOp.updateStatus u s) d =
      if d.vendor_id = u then { d with status := s } else d := by
  unfold applyDealOp updateDealStatus
  by_cases h : d.vendor_id = u <;> simp [h]

/-- Unfolding `applyDealOp` for a quantity edit, mirroring the guard
order of `updateDealQuantity`. -/
theorem applyDealOp_updateQuantity (u : ℕ) (d : DealRec) (rq : ℤ) :
    applyDealOp (DealOp.updateQuantity u rq) d =
      if d.vendor_id ≠ u then d
      else if rq < 0 ∨ rq > d.quantity then d
      else { d with
        remaining_quantity := rq
        status := if rq = 0 then DealStatus.sold else DealStatus.active } := by
  unfold applyDealOp updateDealQuantity
  by_cases h1 : d.vendor_id ≠ u <;> by_cases h2 : rq < 0 ∨ rq > d.quantity <;>
    simp [h1, h2]

/-- Unfolding the expiry sweep step: the `updateDealStatus` call inside
it always succeeds because the vendor sweeps their own listing. -/
theorem sweepDeal_eq (now : ℤ) (d : DealRec) :
    sweepDeal now d =
      if d.status = DealStatus.active ∧ d.expiry_time < now then
        { d with status := DealStatus.expired } else d := by
  unfold sweepDeal updateDealStatus
  split
  · simp
  · rfl

/-- C2: after any operation on a deal satisfying
`0 ≤ remaining_quantity ≤ quantity`, that invariant still holds;
`updateDealQuantity` rejects a requested remaining quantity below `0` or
above `quantity` with an error and leaves the stored row unchanged; and a
freshly created deal (with the schema's `quantity > 0` check) satisfies
the invariant as well. -/
theorem remaining_quantity_invariant (d : DealRec) (hd : DealInvariant d) :
    (∀ op : DealOp, DealInvariant (applyDealOp op d)) ∧
    (∀ (u : ℕ) (rq : ℤ), rq < 0 ∨ rq > d.quantity →
      (∃ msg, updateDealQuantity u d rq = Except.error msg) ∧
        applyDealOp (DealOp.updateQuantity u rq) d = d) ∧
    (∀ (v i : ℕ) (now : ℤ) (data : CreateDealData), 0 < data.quantity →
      DealInvariant (createDealRow v i now data)) := by
  obtain ⟨hd0, hd1⟩ := hd
  refine ⟨?_, ?_, ?_⟩
  · intro op
    cases op with
    | updateStatus u s =>
      rw [applyDealOp_updateStatus]
      split <;> exact ⟨hd0, hd1⟩
    | updateQuantity u rq =>
      rw [applyDealOp_updateQuantity]
      split
      · exact ⟨hd0, hd1⟩
      · split
        · exact ⟨hd0, hd1⟩
        · rename_i hrange
          push_neg at hrange
          exact ⟨hrange.1, hrange.2⟩
    | sweep now =>
      show DealInvariant (sweepDeal now d)
      rw [sweepDeal_eq]
      split <;> exact ⟨hd0, hd1⟩
  · intro u rq hrq
    constructor
    · by_cases h1 : d.vendor_id ≠ u
      · exact ⟨"You can only update your own deals",
          by simp [updateDealQuantity, h1]⟩
      · exact ⟨"Remaining quantity must be between 0 and " ++ toString d.quantity,
          by simp [updateDealQuantity, h1, if_pos hrq]⟩
    · rw [applyDealOp_updateQuantity]
      by_cases h1 : d.vendor_id ≠ u
      · simp [h1]
      · simp [h1, if_pos hrq]
  · intro v i now data h
    exact ⟨le_of_lt h, le_refl _⟩

/-- Sample active deal with `quantity = 10` and `remaining_quantity = 3`,
as in the spec's worked example. -/
def exampleDeal : DealRec :=
  { id := 1
    vendor_id := 7
    quantity := 10
    remaining_quantity := 3
    discount_percent := 20
    original_price := 100
    discounted_price := 80
    expiry_time := 2000
    created_at := 1000
    latitude := 17
    longitude := 78
    status := DealStatus.active }

/-- Witness for C2 at a concrete deal: the invariant survives a
quantity edit, and an out-of-range request leaves the row unchanged. -/
theorem remaining_quantity_invariant_witness :
    DealInvariant (applyDealOp (DealOp.updateQuantity 7 9) exampleDeal) ∧
      applyDealOp (DealOp.updateQuantity 7 11) exampleDeal = exampleDeal :=
  ⟨(remaining_quantity_invariant exampleDeal (by decide)).1 (DealOp.updateQuantity 7 9),
    ((remaining_quantity_invariant exampleDeal (by decide)).2.1 7 11
      (Or.inr (by decide))).2⟩

/-- C3: a successful `updateDealQuantity` that sets the remaining
quantity to `0` forces `status = sold` in the same update. -/
theorem updateDealQuantity_zero_forces_sold (u : ℕ) (d d2 : DealRec) (rq : ℤ)
    (h : updateDealQuantity u d rq = Except.ok d2) (h0 : rq = 0) :
    d2.status = DealStatus.sold ∧ d2.remaining_quantity = 0 := by
  subst h0
  unfold updateDealQuantity at h
  split at h
  · simp at h
  · split at h
    · simp at h
    · simp only [Except.ok.injEq] at h
      subst h
      simp

/-- The row produced by the spec's worked example: remaining quantity
set to `0`, status forced to `sold`. -/
def exampleDealAfterZero : DealRec :=
  { exampleDeal with remaining_quantity := 0, status := DealStatus.sold }

/-- Witness for C3: the spec's example deal (`quantity = 10`,
`remaining_quantity = 3`) updated to remaining `0` ends sold. -/
theorem updateDealQuantity_zero_forces_sold_witness :
    exampleDeal.quantity = 10 ∧ exampleDeal.remaining_quantity = 3 ∧
      exampleDealAfterZero.status = DealStatus.sold ∧
      exampleDealAfterZero.remaining_quantity = 0 :=
  ⟨rfl, rfl,
    (updateDealQuantity_zero_forces_sold 7 exampleDeal exampleDealAfterZero 0 rfl rfl).1,
    (updateDealQuantity_zero_forces_sold 7 exampleDeal exampleDealAfterZero 0 rfl rfl).2⟩

/-- A deal already in the terminal `sold` state (stock exhausted). -/
def soldDeal : DealRec :=
  { id := 2
    vendor_id := 5
    quantity := 10
    remaining_quantity := 0
    discount_percent := 10
    original_price := 50
    discounted_price := 45
    expiry_time := 5000
    created_at := 100
    latitude := 17
    longitude := 78
    status := DealStatus.sold }

/-- C4 counterexample: a sold deal transitions back to `active` through
`updateDealQuantity` — the update writes
`status = remainingQuantity === 0 ? 'sold' : 'active'` regardless of the
previous status, so restocking a sold (or expired) deal reactivates it. -/
theorem sold_deal_reactivated_counterexample :
    soldDeal.status = DealStatus.sold ∧
      (applyDealOp (DealOp.updateQuantity 5 3) soldDeal).status = DealStatus.active :=
  ⟨rfl, rfl⟩

/-- C4 (amended): a deal in a terminal state (`sold` or `expired`)
returns to `active` exactly when the owning vendor either calls
`updateDealStatus` with `active` explicitly (no in-repo caller does) or
calls `updateDealQuantity` with a valid remaining quantity `> 0`; the
expiry sweep and the in-repo status updates (`sold`, `expired`) never
reactivate it. -/
theorem terminal_status_reactivation_iff (d : DealRec) (op : DealOp)
    (h : d.status ≠ DealStatus.active) :
    (applyDealOp op d).status = DealStatus.active ↔
      op = DealOp.updateStatus d.vendor_id DealStatus.active ∨
        ∃ rq, op = DealOp.updateQuantity d.vendor_id rq ∧ 0 < rq ∧ rq ≤ d.quantity := by
  cases op with
  | updateStatus u s =>
    rw [applyDealOp_updateStatus]
    by_cases hu : d.vendor_id = u
    · subst hu
      cases s <;> simp [h]
    · simp [h, hu]
      intro he
      exact absurd he.symm hu
  | updateQuantity u rq =>
    rw [applyDealOp_updateQuantity]
    by_cases hu : d.vendor_id ≠ u
    · simp only [if_pos hu]
      simp [h]
      intro he
      exact absurd he.symm hu
    · simp only [if_neg hu]
      push_neg at hu
      by_cases hr : rq < 0 ∨ rq > d.quantity
      · rw [if_pos hr]
        simp only [hu]
        simp [h]
        omega
      · rw [if_neg hr]
        push_neg at hr
        by_cases h0 : rq = 0
        · subst h0
          simp [h, hu]
        · simp [h0, hu]
          omega
  | sweep now =>
    show (sweepDeal now d).status = DealStatus.active ↔ _
    rw [sweepDeal_eq]
    rw [if_neg (fun hc => h hc.1)]
    simp [h]

/-- Witness for C4 (amended): restocking the concrete sold deal with a
valid positive quantity reactivates it. -/
theorem terminal_status_reactivation_iff_witness :
    (applyDealOp (DealOp.updateQuantity 5 4) soldDeal).status = DealStatus.active :=
  (terminal_status_reactivation_iff soldDeal (DealOp.updateQuantity 5 4)
      (by decide)).mpr
    (Or.inr ⟨4, rfl, by decide, by decide⟩)

/-- C10: a deal inserted by `createDeal` starts with
`remaining_quantity = quantity` and
`discounted_price = original_price * (1 - discount_percent / 100)`, so —
given the schema's `quantity > 0` check that gates the insert — the
fresh row satisfies `0 ≤ remaining_quantity ≤ quantity`. -/
theorem createDeal_initial_row (v i : ℕ) (now : ℤ) (data : CreateDealData)
    (h : 0 < data.quantity) :
    (createDealRow v i now data).remaining_quantity =
        (createDealRow v i now data).quantity ∧
      (createDealRow v i now data).discounted_price =
        data.original_price * (1 - data.discount_percent / 100) ∧
      DealInvariant (createDealRow v i now data) :=
  ⟨rfl, rfl, le_of_lt h, le_refl _⟩

/-- Concrete input for the C10 witness. -/
def exampleCreateData : CreateDealData :=
  { quantity := 8
    discount_percent := 25
    original_price := 200
    expiry_time := 9000
    latitude := 17
    longitude := 78 }

/-- Witness for C10 at a concrete creation request. -/
theorem createDeal_initial_row_witness :
    (createDealRow 3 11 500 exampleCreateData).remaining_quantity =
        (createDealRow 3 11 500 exampleCreateData).quantity ∧
      (createDealRow 3 11 500 exampleCreateData).discounted_price =
        exampleCreateData.original_price *
          (1 - exampleCreateData.discount_percent / 100) ∧
      DealInvariant (createDealRow 3 11 500 exampleCreateData) :=
  createDeal_initial_row 3 11 500 exampleCreateData (by decide)

instance (d : DealRec) : Decidable (dealChecks d) :=
  inferInstanceAs (Decidable (_ ∧ _))

/-- The relevant backend tables: `deals` and `orders`. -/
structure AppState where
  deals : List DealRec
  orders : List OrderRec
deriving DecidableEq, Repr

/-- `OrderService.createOrder`: the duplicate check reads the buyer's
existing order for the deal with `.single()`, which yields a row exactly
when one matching row exists; on a duplicate the call fails with
"You have already reserved this deal" and inserts nothing, otherwise a
`reserved` order row is inserted.  Returns the new state, the `success`
flag and the `message`. -/
def createOrder (b di n : ℕ) (st : AppState) : AppState × Bool × String :=
  if (st.orders.filter (fun o => decide (o.buyer_id = b ∧ o.deal_id = di))).length = 1 then
    (st, false, "You have already reserved this deal")
  else
    ({ st with orders := st.orders ++
        [{ id := n, buyer_id := b, deal_id := di, status := OrderStatus.reserved }] },
      true, "Deal reserved successfully!")

/-- The mutating operations on the backend state reachable from the
client services. -/
inductive AppOp
  | createDeal (vendorId newId : ℕ) (now : ℤ) (data : CreateDealData)
  | updateStatus (userId dealId : ℕ) (s : DealStatus)
  | updateQuantity (userId dealId : ℕ) (rq : ℤ)
  | sweep (vendorId : ℕ) (now : ℤ)
  | createOrder (buyerId dealId newId : ℕ)
  | setOrderStatus (orderId : ℕ) (s : OrderStatus)

/-- State semantics of each operation.  Row updates are keyed on the id
columns exactly as the service calls key their `.eq` filters; a deal
insert goes through only when the schema checks accept the row. -/
def applyAppOp : AppOp → AppState → AppState
  | AppOp.createDeal v nid now data, st =>
    if dealChecks (createDealRow v nid now data) then
      { st with deals := st.deals ++ [createDealRow v nid now data] }
    else st
  | AppOp.updateStatus u di s, st =>
    { st with deals := st.deals.map (fun d =>
        if d.id = di then applyDealOp (DealOp.updateStatus u s) d else d) }
  | AppOp.updateQuantity u di rq, st =>
    { st with deals := st.deals.map (fun d =>
        if d.id = di then applyDealOp (DealOp.updateQuantity u rq) d else d) }
  | AppOp.sweep v now, st =>
    { st with deals := st.deals.map (fun d =>
        if d.vendor_id = v then sweepDeal now d else d) }
  | AppOp.createOrder b di n, st => (createOrder b di n st).1
  | AppOp.setOrderStatus oid s, st =>
    { st with orders := st.orders.map (fun o =>
        if o.id = oid then { o with status := s } else o) }

/-- Status updates keep the id and the remaining quantity of a row. -/
theorem applyDealOp_updateStatus_preserves (u : ℕ) (s : DealStatus) (d : DealRec) :
    (applyDealOp (DealOp.updateStatus u s) d).id = d.id ∧
      (applyDealOp (DealOp.updateStatus u s) d).remaining_quantity =
        d.remaining_quantity := by
  rw [applyDealOp_updateStatus]
  split <;> exact ⟨rfl, rfl⟩

/-- The expiry sweep keeps the id and the remaining quantity of a row. -/
theorem sweepDeal_preserves (now : ℤ) (d : DealRec) :
    (sweepDeal now d).id = d.id ∧
      (sweepDeal now d).remaining_quantity = d.remaining_quantity := by
  rw [sweepDeal_eq]
  split <;> exact ⟨rfl, rfl⟩

/-- C5: a successful (or failed) `createOrder` never touches the `deals`
table — no `remaining_quantity` decrement is linked to a reservation —
and across every modelled operation other than the vendor's explicit
quantity edit, each existing deal keeps its `remaining_quantity`. -/
theorem createOrder_deals_frame :
    (∀ (b di n : ℕ) (st : AppState), ((createOrder b di n st).1).deals = st.deals) ∧
    (∀ (op : AppOp) (st : AppState),
      (∀ (u i : ℕ) (rq : ℤ), op ≠ AppOp.updateQuantity u i rq) →
      ∀ d, d ∈ st.deals →
        ∃ d2, d2 ∈ (applyAppOp op st).deals ∧ d2.id = d.id ∧
          d2.remaining_quantity = d.remaining_quantity) := by
  constructor
  · intro b di n st
    unfold createOrder
    split <;> rfl
  · intro op st hne d hd
    cases op with
    | createDeal v nid now data =>
      simp only [applyAppOp]
      split
      · exact ⟨d, List.mem_append_left _ hd, rfl, rfl⟩
      · exact ⟨d, hd, rfl, rfl⟩
    | updateStatus u di s =>
      simp only [applyAppOp]
      refine ⟨if d.id = di then applyDealOp (DealOp.updateStatus u s) d else d,
        List.mem_map_of_mem _ hd, ?_⟩
      split
      · exact applyDealOp_updateStatus_preserves u s d
      · exact ⟨rfl, rfl⟩
    | updateQuantity u di rq =>
      exact absurd rfl (hne u di rq)
    | sweep v now =>
      simp only [applyAppOp]
      refine ⟨if d.vendor_id = v then sweepDeal now d else d,
        List.mem_map_of_mem _ hd, ?_⟩
      split
      · exact sweepDeal_preserves now d
      · exact ⟨rfl, rfl⟩
    | createOrder b di n =>
      refine ⟨d, ?_, rfl, rfl⟩
      simp only [applyAppOp]
      unfold createOrder
      split
      · exact hd
      · exact hd
    | setOrderStatus oid s =>
      exact ⟨d, hd, rfl, rfl⟩

/-- Concrete deal for the C5 witness. -/
def frameDeal : DealRec :=
  { id := 21
    vendor_id := 4
    quantity := 6
    remaining_quantity := 6
    discount_percent := 10
    original_price := 60
    discounted_price := 54
    expiry_time := 4000
    created_at := 10
    latitude := 17
    longitude := 78
    status := DealStatus.active }

/-- Concrete state for the C5 witness: one active deal, no orders. -/
def frameState : AppState :=
  { deals := [frameDeal], orders := [] }

/-- Witness for C5: reserving the concrete deal leaves the deals table
unchanged, and a sweep keeps the deal's remaining quantity. -/
theorem createOrder_deals_frame_witness :
    ((createOrder 9 21 1 frameState).1).deals = frameState.deals ∧
      ∃ d2, d2 ∈ (applyAppOp (AppOp.sweep 4 5000) frameState).deals ∧
        d2.id = frameDeal.id ∧
        d2.remaining_quantity = frameDeal.remaining_quantity :=
  ⟨createOrder_deals_frame.1 9 21 1 frameState,
    createOrder_deals_frame.2 (AppOp.sweep 4 5000) frameState
      (fun u i rq h => AppOp.noConfusion h)
      frameDeal (by simp [frameState])⟩

/-- C6: under sequential execution (every buyer/deal pair currently has
at most one order row), `createOrder` fails with the already-reserved
message and inserts nothing precisely when the buyer already holds an
order for that deal; and after the call every buyer/deal pair still has
at most one order row. -/
theorem createOrder_unique_per_buyer (b di n : ℕ) (st : AppState)
    (h : ∀ b' i' : ℕ, (st.orders.filter (fun o =>
      decide (o.buyer_id = b' ∧ o.deal_id = i'))).length ≤ 1) :
    (((createOrder b di n st).2.1 = false ∧
        (createOrder b di n st).2.2 = "You have already reserved this deal" ∧
        (createOrder b di n st).1 = st)
      ↔ ∃ o ∈ st.orders, o.buyer_id = b ∧ o.deal_id = di) ∧
    (∀ b' i' : ℕ, ((applyAppOp (AppOp.createOrder b di n) st).orders.filter (fun o =>
      decide (o.buyer_id = b' ∧ o.deal_id = i'))).length ≤ 1) := by
  by_cases hc : (st.orders.filter (fun o =>
      decide (o.buyer_id = b ∧ o.deal_id = di))).length = 1
  · have hco : createOrder b di n st =
        (st, false, "You have already reserved this deal") := by
      unfold createOrder
      rw [if_pos hc]
    constructor
    · rw [hco]
      constructor
      · intro _
        have hpos : 0 < (st.orders.filter (fun o =>
            decide (o.buyer_id = b ∧ o.deal_id = di))).length := by omega
        obtain ⟨o, ho⟩ := List.exists_mem_of_length_pos hpos
        rw [List.mem_filter] at ho
        exact ⟨o, ho.1, of_decide_eq_true ho.2⟩
      · intro _
        exact ⟨rfl, rfl, rfl⟩
    · intro b' i'
      show (((createOrder b di n st).1).orders.filter _).length ≤ 1
      rw [hco]
      exact h b' i'
  · have h0 : (st.orders.filter (fun o =>
        decide (o.buyer_id = b ∧ o.deal_id = di))) = [] := by
      have := h b di
      exact List.length_eq_zero.mp (by omega)
    have hco : createOrder b di n st =
        ({ st with orders := st.orders ++
            [{ id := n, buyer_id := b, deal_id := di, status := OrderStatus.reserved }] },
          true, "Deal reserved successfully!") := by
      unfold createOrder
      rw [if_neg hc]
    constructor
    · rw [hco]
      constructor
      · intro hx
        exact Bool.noConfusion hx.1
      · rintro ⟨o, ho, hb, hi⟩
        have : o ∈ (st.orders.filter (fun o =>
            decide (o.buyer_id = b ∧ o.deal_id = di))) :=
          List.mem_filter.mpr ⟨ho, decide_eq_true ⟨hb, hi⟩⟩
        rw [h0] at this
        exact absurd this (List.not_mem_nil o)
    · intro b' i'
      show (((createOrder b di n st).1).orders.filter _).length ≤ 1
      rw [hco]
      rw [List.filter_append]
      by_cases hbi : b = b' ∧ di = i'
      · obtain ⟨hb, hi⟩ := hbi
        subst hb
        subst hi
        rw [h0]
        simp
      · have hsingle : (List.filter (fun o =>
            decide (o.buyer_id = b' ∧ o.deal_id = i'))
            [({ id := n, buyer_id := b, deal_id := di,
                status := OrderStatus.reserved } : OrderRec)]) = [] := by
          simp only [List.filter, decide_eq_false hbi]
        rw [hsingle]
        simpa using h b' i'

/-- Concrete state for the C6 witness: one order already reserved by
buyer 9 for deal 21. -/
def orderState : AppState :=
  { deals := []
    orders := [{ id := 1, buyer_id := 9, deal_id := 21,
                 status := OrderStatus.reserved }] }

/-- Witness for C6: the concrete duplicate reservation fails without
inserting, because buyer 9 already reserved deal 21. -/
theorem createOrder_unique_per_buyer_witness :
    (createOrder 9 21 2 orderState).2.1 = false ∧
      (createOrder 9 21 2 orderState).2.2 = "You have already reserved this deal" ∧
      (createOrder 9 21 2 orderState).1 = orderState :=
  (createOrder_unique_per_buyer 9 21 2 orderState
      (fun b' i' => le_trans (List.length_filter_le _ _) (by simp [orderState]))).1.mpr
    ⟨{ id := 1, buyer_id := 9, deal_id := 21, status := OrderStatus.reserved },
      by simp [orderState], rfl, rfl⟩

/-- The vendor-deals listing loop (`loadDeals` on the vendor screen):
walking the vendor's deals, an active deal past its expiry is marked
expired in the store (through `updateDealStatus`, via `sweepDeal`) and
left out of the returned active list; an active, unexpired deal is kept
and returned; any other deal is kept and not returned.  Result:
`(stored rows after the walk, active list shown to the UI)`. -/
def loadDeals (now : ℤ) : List DealRec → List DealRec × List DealRec
  | [] => ([], [])
  | d :: rest =>
    if d.status = DealStatus.active ∧ d.expiry_time < now then
      (sweepDeal now d :: (loadDeals now rest).1, (loadDeals now rest).2)
    else if d.status = DealStatus.active then
      (d :: (loadDeals now rest).1, d :: (loadDeals now rest).2)
    else
      (d :: (loadDeals now rest).1, (loadDeals now rest).2)

/-- C8: on the vendor listing read, the returned active list is exactly
the active deals whose expiry has not passed; the store after the read is
the pointwise sweep of the rows that were read; no active row past its
expiry survives in the store; and each active past-expiry row was marked
`expired` by the sweep's `updateDealStatus` call. -/
theorem loadDeals_lazy_expiry (now : ℤ) (deals : List DealRec) :
    (loadDeals now deals).2 = deals.filter (fun d =>
      decide (d.status = DealStatus.active) && !decide (d.expiry_time < now)) ∧
    (loadDeals now deals).1 = deals.map (sweepDeal now) ∧
    (loadDeals now deals).1.filter (fun d =>
      decide (d.status = DealStatus.active) && decide (d.expiry_time < now)) = [] ∧
    (∀ d, d ∈ deals → d.status = DealStatus.active → d.expiry_time < now →
      sweepDeal now d = { d with status := DealStatus.expired }) := by
  have h1 : (loadDeals now deals).1 = deals.map (sweepDeal now) := by
    induction deals with
    | nil => rfl
    | cons d rest ih =>
      by_cases hc : d.status = DealStatus.active ∧ d.expiry_time < now
      · simp [loadDeals, hc, ih]
      · have hs : sweepDeal now d = d := by rw [sweepDeal_eq, if_neg hc]
        by_cases ha : d.status = DealStatus.active
        · have hx : ¬d.expiry_time < now := fun hx => hc ⟨ha, hx⟩
          simp [loadDeals, hc, ha, hx, ih, hs]
        · simp [loadDeals, hc, ha, ih, hs]
  have h2 : (loadDeals now deals).2 = deals.filter (fun d =>
      decide (d.status = DealStatus.active) && !decide (d.expiry_time < now)) := by
    clear h1
    induction deals with
    | nil => rfl
    | cons d rest ih =>
      by_cases hc : d.status = DealStatus.active ∧ d.expiry_time < now
      · simp [loadDeals, hc, ih, List.filter, hc.1, hc.2]
      · by_cases ha : d.status = DealStatus.active
        · have hx : ¬d.expiry_time < now := fun hx => hc ⟨ha, hx⟩
          simp [loadDeals, hc, ha, ih, List.filter, hx]
        · simp [loadDeals, hc, ha, ih, List.filter]
  refine ⟨h2, h1, ?_, ?_⟩
  · rw [h1]
    rw [List.filter_map]
    have hnil : (deals.filter ((fun d =>
        decide (d.status = DealStatus.active) && decide (d.expiry_time < now)) ∘
          sweepDeal now)) = [] := by
      rw [List.filter_eq_nil_iff]
      intro d _
      by_cases hc : d.status = DealStatus.active ∧ d.expiry_time < now
      · simp [Function.comp, sweepDeal_eq, hc]
      · have hs : sweepDeal now d = d := by rw [sweepDeal_eq, if_neg hc]
        simp only [Function.comp, hs, Bool.and_eq_true, decide_eq_true_eq]
        exact fun hx => hc ⟨hx.1, hx.2⟩
    rw [hnil]
    rfl
  · intro d _ hact hpast
    rw [sweepDeal_eq, if_pos ⟨hact, hpast⟩]

/-- Concrete past-due active deal for the C8 witness. -/
def pastDueDeal : DealRec :=
  { id := 31
    vendor_id := 6
    quantity := 5
    remaining_quantity := 5
    discount_percent := 10
    original_price := 40
    discounted_price := 36
    expiry_time := 100
    created_at := 50
    latitude := 17
    longitude := 78
    status := DealStatus.active }

/-- Witness for C8: reading the listing at time 200 excludes the
past-due deal from the active list and marks it expired. -/
theorem loadDeals_lazy_expiry_witness :
    (loadDeals 200 [pastDueDeal]).2 = [] ∧
      sweepDeal 200 pastDueDeal = { pastDueDeal with status := DealStatus.expired } :=
  ⟨by rw [(loadDeals_lazy_expiry 200 [pastDueDeal]).1]; rfl,
    (loadDeals_lazy_expiry 200 [pastDueDeal]).2.2.2 pastDueDeal
      (List.mem_singleton_self pastDueDeal) rfl (by decide)⟩

/-- A row of the `otps` table: a 6-digit code stored against a phone
number with its creation timestamp. -/
structure OTPRec where
  id : ℕ
  phone_number : String
  otp : String
  created_at : ℤ
deriving DecidableEq, Repr

/-- The read in `verifyOTP`: the stored OTPs for the phone number,
ordered by `created_at` descending, limited to one row. -/
def latestOTP (phone : String) (store : List OTPRec) : Option OTPRec :=
  ((store.filter (fun x => decide (x.phone_number = phone))).mergeSort
    (fun r1 r2 => decide (r2.created_at ≤ r1.created_at))).head?

/-- `OTPService.verifyOTP`: empty inputs are rejected; with no stored
OTP the call fails; a stored OTP older than five minutes (300000 ms) is
deleted and the call fails with the expiry message; a wrong code fails;
a correct, fresh code succeeds and the stored OTP is deleted.  Returns
`(store after the call, success, message)`. -/
def verifyOTP (phone entered : String) (now : ℤ) (store : List OTPRec) :
    List OTPRec × Bool × String :=
  if phone = "" ∨ entered = "" then
    (store, false, "Phone number and OTP are required")
  else
    match latestOTP phone store with
    | none => (store, false, "No OTP found. Please request a new OTP.")
    | some r =>
      if now - r.created_at > 300000 then
        (store.filter (fun x => decide (x.id ≠ r.id)), false,
          "OTP has expired. Please request a new OTP.")
      else if r.otp ≠ entered then
        (store, false, "Invalid OTP. Please check and try again.")
      else
        (store.filter (fun x => decide (x.id ≠ r.id)), true,
          "OTP verified successfully!")

/-- `OTPService.sendOTP`: short phone numbers are rejected; otherwise
all previous OTPs for the phone number are deleted and the freshly
generated code is stored with its creation timestamp.  The generated
6-digit code is a parameter (the source draws it from `Math.random`). -/
def sendOTP (phone code : String) (newId : ℕ) (now : ℤ) (store : List OTPRec) :
    List OTPRec × Bool :=
  if phone.length < 10 then (store, false)
  else
    (store.filter (fun x => decide (x.phone_number ≠ phone)) ++
      [{ id := newId, phone_number := phone, otp := code, created_at := now }],
      true)

/-- When the store holds exactly one OTP row for the phone number, the
`order by created_at desc limit 1` read returns it. -/
theorem latestOTP_single (phone : String) (store : List OTPRec) (r : OTPRec)
    (hone : store.filter (fun x => decide (x.phone_number = phone)) = [r]) :
    latestOTP phone store = some r := by
  unfold latestOTP
  rw [hone, List.mergeSort_singleton]
  rfl

/-- Unfolding `verifyOTP` when no OTP row exists for the phone. -/
theorem verifyOTP_none (phone entered : String) (now : ℤ) (store : List OTPRec)
    (hcond : ¬(phone = "" ∨ entered = ""))
    (hl : latestOTP phone store = none) :
    verifyOTP phone entered now store =
      (store, false, "No OTP found. Please request a new OTP.") := by
  unfold verifyOTP
  rw [if_neg hcond, hl]

/-- Unfolding `verifyOTP` when the latest OTP row for the phone is `r`. -/
theorem verifyOTP_some (phone entered : String) (now : ℤ) (store : List OTPRec)
    (r : OTPRec) (hcond : ¬(phone = "" ∨ entered = ""))
    (hl : latestOTP phone store = some r) :
    verifyOTP phone entered now store =
      if now - r.created_at > 300000 then
        (store.filter (fun x => decide (x.id ≠ r.id)), false,
          "OTP has expired. Please request a new OTP.")
      else if r.otp ≠ entered then
        (store, false, "Invalid OTP. Please check and try again.")
      else
        (store.filter (fun x => decide (x.id ≠ r.id)), true,
          "OTP verified successfully!") := by
  unfold verifyOTP
  rw [if_neg hcond, hl]

/-- C7: with a single stored OTP row for the phone number (which is what
`sendOTP` guarantees), `verifyOTP` fails with the expiry message and
deletes the row once more than five minutes have elapsed since its
creation; a successful verification deletes the row, so verifying the
same code a second time fails with "No OTP found"; and `sendOTP` leaves
exactly one row for the phone number. -/
theorem verifyOTP_expiry_and_single_use (phone entered code : String)
    (now now2 : ℤ) (newId : ℕ) (store : List OTPRec) (r : OTPRec)
    (hp : phone ≠ "") (he : entered ≠ "")
    (hone : store.filter (fun x => decide (x.phone_number = phone)) = [r]) :
    (now - r.created_at > 300000 →
      verifyOTP phone entered now store =
        (store.filter (fun x => decide (x.id ≠ r.id)), false,
          "OTP has expired. Please request a new OTP.")) ∧
    ((verifyOTP phone entered now store).2.1 = true →
      verifyOTP phone entered now2 (verifyOTP phone entered now store).1 =
        ((verifyOTP phone entered now store).1, false,
          "No OTP found. Please request a new OTP.")) ∧
    (10 ≤ phone.length →
      (sendOTP phone code newId now store).1.filter
          (fun x => decide (x.phone_number = phone)) =
        [{ id := newId, phone_number := phone, otp := code, created_at := now }]) := by
  have hcond : ¬(phone = "" ∨ entered = "") := by
    rintro (hx | hx)
    · exact hp hx
    · exact he hx
  have hlatest : latestOTP phone store = some r := latestOTP_single phone store r hone
  have hdel : (store.filter (fun x => decide (x.id ≠ r.id))).filter
      (fun x => decide (x.phone_number = phone)) = [] := by
    rw [List.filter_filter]
    have hcomm : ∀ x : OTPRec,
        (decide (x.phone_number = phone) && decide (x.id ≠ r.id)) =
          (decide (x.id ≠ r.id) && decide (x.phone_number = phone)) := by
      intro x
      exact Bool.and_comm _ _
    rw [List.filter_congr (fun x _ => hcomm x)]
    rw [← List.filter_filter, hone]
    simp
  have hmain := verifyOTP_some phone entered now store r hcond hlatest
  refine ⟨?_, ?_, ?_⟩
  · intro hexp
    rw [hmain, if_pos hexp]
  · intro hsucc
    have hbranch : verifyOTP phone entered now store =
        (store.filter (fun x => decide (x.id ≠ r.id)), true,
          "OTP verified successfully!") := by
      by_cases hexp : now - r.created_at > 300000
      · exfalso
        rw [hmain, if_pos hexp] at hsucc
        exact Bool.noConfusion hsucc
      · by_cases hotp : r.otp ≠ entered
        · exfalso
          rw [hmain, if_neg hexp, if_pos hotp] at hsucc
          exact Bool.noConfusion hsucc
        · rw [hmain, if_neg hexp, if_neg hotp]
    rw [hbranch]
    have hlatest2 : latestOTP phone
        (store.filter (fun x => decide (x.id ≠ r.id))) = none := by
      unfold latestOTP
      rw [hdel, List.mergeSort_nil]
      rfl
    exact verifyOTP_none phone entered now2 _ hcond hlatest2
  · intro hlen
    unfold sendOTP
    rw [if_neg (not_lt.mpr hlen)]
    rw [List.filter_append]
    have hleft : (store.filter (fun x => decide (x.phone_number ≠ phone))).filter
        (fun x => decide (x.phone_number = phone)) = [] := by
      rw [List.filter_filter, List.filter_eq_nil_iff]
      intro x _
      simp only [Bool.and_eq_true, decide_eq_true_eq]
      exact fun hx => hx.2 hx.1
    rw [hleft]
    simp

/-- Concrete stored OTP row for the C7 witness (created at time 0). -/
def exampleOTP : OTPRec :=
  { id := 1, phone_number := "9876543210", otp := "123456", created_at := 0 }

/-- Witness for C7: at time 400000 (past the 5-minute window) the
concrete OTP verification fails with the expiry message and empties the
store; a successful verification at time 1000 removes the row, so the
same code fails on the second attempt. -/
theorem verifyOTP_expiry_and_single_use_witness :
    verifyOTP "9876543210" "123456" 400000 [exampleOTP] =
        ([], false, "OTP has expired. Please request a new OTP.") ∧
      (verifyOTP "9876543210" "123456" 1000 [exampleOTP]).2.1 = true ∧
      verifyOTP "9876543210" "123456" 2000
          ((verifyOTP "9876543210" "123456" 1000 [exampleOTP]).1) =
        ((verifyOTP "9876543210" "123456" 1000 [exampleOTP]).1, false,
          "No OTP found. Please request a new OTP.") := by
  have hsucc : (verifyOTP "9876543210" "123456" 1000 [exampleOTP]).2.1 = true := by
    rw [verifyOTP_some "9876543210" "123456" 1000 [exampleOTP] exampleOTP
      (by decide) (latestOTP_single "9876543210" [exampleOTP] exampleOTP rfl)]
    rfl
  refine ⟨?_, hsucc, ?_⟩
  · exact ((verifyOTP_expiry_and_single_use "9876543210" "123456" "999999"
      400000 0 7 [exampleOTP] exampleOTP (by decide) (by decide) rfl).1
        (by decide)).trans rfl
  · exact (verifyOTP_expiry_and_single_use "9876543210" "123456" "999999"
      1000 2000 7 [exampleOTP] exampleOTP (by decide) (by decide) rfl).2.1 hsucc

/-- The `get_nearby_deals(user_lat, user_lon, radius_km)` stored
procedure: `SELECT ... FROM deals WHERE status = 'active' AND
expiry_time > NOW() AND calculate_distance(user_lat, user_lon,
d.latitude, d.longitude) <= radius_km ORDER BY distance ASC,
d.created_at DESC`.  The distance function `D` abstracts
`calculate_distance` (analysed separately over the reals in the
`Haversine` namespace); the `WHERE` clause is a filter and the
`ORDER BY` a sort on (distance ascending, creation time descending);
`dealLE` is that sort's comparator. -/
def dealLE (D : ℚ → ℚ → ℚ → ℚ → ℚ) (ulat ulon : ℚ) (d1 d2 : DealRec) : Bool :=
  decide (D ulat ulon d1.latitude d1.longitude <
      D ulat ulon d2.latitude d2.longitude) ||
    (decide (D ulat ulon d1.latitude d1.longitude =
        D ulat ulon d2.latitude d2.longitude) &&
      decide (d2.created_at ≤ d1.created_at))

def getNearbyDeals (D : ℚ → ℚ → ℚ → ℚ → ℚ) (ulat ulon radius : ℚ) (now : ℤ)
    (deals : List DealRec) : List DealRec :=
  (deals.filter (fun d =>
      decide (d.status = DealStatus.active) && decide (now < d.expiry_time) &&
        decide (D ulat ulon d.latitude d.longitude ≤ radius))).mergeSort
    (dealLE D ulat ulon)

/-- The query comparator agrees with the lexicographic order "distance
ascending, creation time descending": it is transitive and total, so the
sort yields a list pairwise ordered by it. -/
theorem dealLE_trans_total (D : ℚ → ℚ → ℚ → ℚ → ℚ) (ulat ulon : ℚ) :
    (∀ a b c : DealRec, dealLE D ulat ulon a b → dealLE D ulat ulon b c →
      dealLE D ulat ulon a c) ∧
    (∀ a b : DealRec, dealLE D ulat ulon a b || dealLE D ulat ulon b a) := by
  constructor
  · intro a b c hab hbc
    simp only [dealLE, Bool.or_eq_true, Bool.and_eq_true, decide_eq_true_eq] at *
    rcases hab with h1 | ⟨h1, h2⟩ <;> rcases hbc with h3 | ⟨h3, h4⟩
    · exact Or.inl (lt_trans h1 h3)
    · exact Or.inl (h3 ▸ h1)
    · exact Or.inl (h1 ▸ h3)
    · exact Or.inr ⟨h1.trans h3, le_trans h4 h2⟩
  · intro a b
    simp only [dealLE, Bool.or_eq_true, Bool.and_eq_true, decide_eq_true_eq]
    rcases lt_trichotomy (D ulat ulon a.latitude a.longitude)
      (D ulat ulon b.latitude b.longitude) with h | h | h
    · exact Or.inl (Or.inl h)
    · rcases le_total b.created_at a.created_at with hc | hc
      · exact Or.inl (Or.inr ⟨h, hc⟩)
      · exact Or.inr (Or.inr ⟨h.symm, hc⟩)
    · exact Or.inr (Or.inl h)

/-- C1: for every user coordinate, radius and deal set, the nearby-deals
query returns exactly (up to the sort's reordering) the deals that are
active, unexpired and within the radius, and the result is ordered by
ascending distance with ties broken by descending creation time. -/
theorem get_nearby_deals_spec (D : ℚ → ℚ → ℚ → ℚ → ℚ) (ulat ulon radius : ℚ)
    (now : ℤ) (deals : List DealRec) :
    List.Perm (getNearbyDeals D ulat ulon radius now deals)
      (deals.filter (fun d =>
        decide (d.status = DealStatus.active) && decide (now < d.expiry_time) &&
          decide (D ulat ulon d.latitude d.longitude ≤ radius))) ∧
    (∀ d, d ∈ getNearbyDeals D ulat ulon radius now deals ↔
      d ∈ deals ∧ d.status = DealStatus.active ∧ now < d.expiry_time ∧
        D ulat ulon d.latitude d.longitude ≤ radius) ∧
    List.Pairwise (fun d1 d2 =>
      D ulat ulon d1.latitude d1.longitude < D ulat ulon d2.latitude d2.longitude ∨
        (D ulat ulon d1.latitude d1.longitude = D ulat ulon d2.latitude d2.longitude ∧
          d2.created_at ≤ d1.created_at))
      (getNearbyDeals D ulat ulon radius now deals) := by
  refine ⟨List.mergeSort_perm _ _, ?_, ?_⟩
  · intro d
    unfold getNearbyDeals
    rw [List.mem_mergeSort, List.mem_filter]
    simp only [Bool.and_eq_true, decide_eq_true_eq]
    constructor
    · rintro ⟨hmem, ⟨hact, hexp⟩, hrad⟩
      exact ⟨hmem, hact, hexp, hrad⟩
    · rintro ⟨hmem, hact, hexp, hrad⟩
      exact ⟨hmem, ⟨hact, hexp⟩, hrad⟩
  · have hsorted := @List.sorted_mergeSort DealRec (dealLE D ulat ulon)
      (dealLE_trans_total D ulat ulon).1
      (dealLE_trans_total D ulat ulon).2
      (deals.filter (fun d =>
        decide (d.status = DealStatus.active) && decide (now < d.expiry_time) &&
          decide (D ulat ulon d.latitude d.longitude ≤ radius)))
    exact hsorted.imp (by
      intro d1 d2 h
      simp only [dealLE, Bool.or_eq_true, Bool.and_eq_true,
        decide_eq_true_eq] at h
      exact h)

end QuickPick

namespace Haversine

/-- Degree-to-radian conversion used by both the SQL `radians(...)` call
and the client's `toRadians`. -/
noncomputable def toRadians (x : ℝ) : ℝ := x * (Real.pi / 180)

/-- Two-argument arctangent with the C-library convention shared by
Postgres `atan2(y, x)` and JS `Math.atan2(y, x)`. -/
noncomputable def atan2 (y x : ℝ) : ℝ :=
  if 0 < x then Real.arctan (y / x)
  else if x < 0 ∧ 0 ≤ y then Real.arctan (y / x) + Real.pi
  else if x < 0 ∧ y < 0 then Real.arctan (y / x) - Real.pi
  else if x = 0 ∧ 0 < y then Real.pi / 2
  else if x = 0 ∧ y < 0 then -(Real.pi / 2)
  else 0

/-- The haversine distance exactly as written in the repository's
`calculate_distance` (SQL) and `LocationService.calculateDistance` (TS),
with Earth radius R = 6371 km:
`a = sin²(dLat/2) + cos(lat1)·cos(lat2)·sin²(dLon/2)`,
`c = 2·atan2(√a, √(1−a))`, distance `R·c`. -/
noncomputable def calculate_distance (lat1 lon1 lat2 lon2 : ℝ) : ℝ :=
  let dLat := toRadians (lat2 - lat1)
  let dLon := toRadians (lon2 - lon1)
  let a := Real.sin (dLat / 2) * Real.sin (dLat / 2) +
    Real.cos (toRadians lat1) * Real.cos (toRadians lat2) *
      Real.sin (dLon / 2) * Real.sin (dLon / 2)
  let c := 2 * atan2 (Real.sqrt a) (Real.sqrt (1 - a))
  6371 * c

/-- Quartic Taylor sandwich for `sin` on an interval inside `(0, 1]`. -/
theorem sin_bounds_of_le {x l h : ℝ} (hl : l ≤ x) (hh : x ≤ h)
    (h0 : 0 < l) (h1 : h ≤ 1) :
    l - h ^ 3 / 6 - h ^ 4 * (5 / 96) ≤ Real.sin x ∧ Real.sin x ≤ h := by
  have hx0 : 0 < x := lt_of_lt_of_le h0 hl
  have habs : |x| ≤ 1 := by
    rw [abs_of_pos hx0]
    linarith
  have hb := Real.sin_bound habs
  rw [abs_of_pos hx0, abs_le] at hb
  obtain ⟨hb1, hb2⟩ := hb
  constructor
  · have hx3 : x ^ 3 ≤ h ^ 3 := pow_le_pow_left₀ hx0.le hh 3
    have hx4 : x ^ 4 ≤ h ^ 4 := pow_le_pow_left₀ hx0.le hh 4
    linarith
  · exact le_of_lt (lt_of_lt_of_le (Real.sin_lt hx0) hh)

/-- Quartic Taylor sandwich for `cos` on an interval inside `(0, 1]`. -/
theorem cos_bounds_of_le {x l h : ℝ} (hl : l ≤ x) (hh : x ≤ h)
    (h0 : 0 < l) (h1 : h ≤ 1) :
    1 - h ^ 2 / 2 - h ^ 4 * (5 / 96) ≤ Real.cos x ∧
      Real.cos x ≤ 1 - l ^ 2 / 2 + h ^ 4 * (5 / 96) := by
  have hx0 : 0 < x := lt_of_lt_of_le h0 hl
  have habs : |x| ≤ 1 := by
    rw [abs_of_pos hx0]
    linarith
  have hb := Real.cos_bound habs
  rw [abs_of_pos hx0, abs_le] at hb
  obtain ⟨hb1, hb2⟩ := hb
  have hx2l : l ^ 2 ≤ x ^ 2 := pow_le_pow_left₀ h0.le hl 2
  have hx2h : x ^ 2 ≤ h ^ 2 := pow_le_pow_left₀ hx0.le hh 2
  have hx4 : x ^ 4 ≤ h ^ 4 := pow_le_pow_left₀ hx0.le hh 4
  constructor <;> linarith

/-- For `0 < a < 1`, the haversine's
`c/2 = atan2(√a, √(1−a)) = arctan(√a/√(1−a))` lies strictly above `√a`
and at most `√a/√(1−a)`. -/
theorem arctan_ratio_bounds {a : ℝ} (h0 : 0 < a) (h1 : a < 1) :
    Real.sqrt a < Real.arctan (Real.sqrt a / Real.sqrt (1 - a)) ∧
      Real.arctan (Real.sqrt a / Real.sqrt (1 - a)) ≤
        Real.sqrt a / Real.sqrt (1 - a) := by
  have hsa : 0 < Real.sqrt a := Real.sqrt_pos.mpr h0
  have hs1a : 0 < Real.sqrt (1 - a) := Real.sqrt_pos.mpr (by linarith)
  have htpos : 0 < Real.sqrt a / Real.sqrt (1 - a) := div_pos hsa hs1a
  have harc0 : 0 < Real.arctan (Real.sqrt a / Real.sqrt (1 - a)) := by
    have hmono := Real.arctan_strictMono htpos
    rwa [Real.arctan_zero] at hmono
  constructor
  · have hsin := Real.sin_lt harc0
    rw [Real.sin_arctan] at hsin
    have hne : (1 : ℝ) - a ≠ 0 := by linarith
    have h1t : 1 + (Real.sqrt a / Real.sqrt (1 - a)) ^ 2 = 1 / (1 - a) := by
      rw [div_pow, Real.sq_sqrt h0.le, Real.sq_sqrt (by linarith : (0:ℝ) ≤ 1 - a)]
      field_simp
    have hident : Real.sqrt a / Real.sqrt (1 - a) /
        Real.sqrt (1 + (Real.sqrt a / Real.sqrt (1 - a)) ^ 2) = Real.sqrt a := by
      rw [h1t, one_div, Real.sqrt_inv]
      field_simp
    rwa [hident] at hsin
  · have hlt := Real.arctan_lt_pi_div_two (Real.sqrt a / Real.sqrt (1 - a))
    have htan := Real.lt_tan harc0 hlt
    rw [Real.tan_arctan] at htan
    exact htan.le

set_option maxHeartbeats 2000000 in
/-- Verified enclosure of the repository's haversine distance at the
spec's example input `(17.3850, 78.4867) → (17.4000, 78.5000)`: the
value lies strictly between 2.184 km and 2.185 km. -/
theorem example_distance_bounds :
    2.184 < calculate_distance 17.3850 78.4867 17.4000 78.5000 ∧
      calculate_distance 17.3850 78.4867 17.4000 78.5000 < 2.185 := by
  have hpiL := Real.pi_gt_d6
  have hpiU := Real.pi_lt_d6
  have e1 : toRadians (17.4000 - 17.3850) / 2 = Real.pi * (1 / 24000) := by
    unfold toRadians
    ring
  have e2 : toRadians (78.5000 - 78.4867) / 2 = Real.pi * (133 / 3600000) := by
    unfold toRadians
    ring
  have e3 : toRadians 17.3850 = Real.pi * (1159 / 12000) := by
    unfold toRadians
    ring
  have e4 : toRadians 17.4000 = Real.pi * (29 / 300) := by
    unfold toRadians
    ring
  -- Radian-angle enclosures from the π digits.
  have b1l : (1.30899666e-4 : ℝ) ≤ Real.pi * (1 / 24000) := by linarith
  have b1h : Real.pi * (1 / 24000) ≤ (1.30899709e-4 : ℝ) := by linarith
  have b2l : (1.16064371e-4 : ℝ) ≤ Real.pi * (133 / 3600000) := by linarith
  have b2h : Real.pi * (133 / 3600000) ≤ (1.16064409e-4 : ℝ) := by linarith
  have b3l : (0.303425427 : ℝ) ≤ Real.pi * (1159 / 12000) := by linarith
  have b3h : Real.pi * (1159 / 12000) ≤ (0.303425524 : ℝ) := by linarith
  have b4l : (0.303687226 : ℝ) ≤ Real.pi * (29 / 300) := by linarith
  have b4h : Real.pi * (29 / 300) ≤ (0.303687324 : ℝ) := by linarith
  -- Sine and cosine enclosures via the quartic Taylor sandwiches.
  have hs1 := sin_bounds_of_le b1l b1h (by norm_num) (by norm_num)
  have hs1L : (1.30899665e-4 : ℝ) ≤ Real.sin (Real.pi * (1 / 24000)) :=
    le_trans (by norm_num) hs1.1
  have hs1U : Real.sin (Real.pi * (1 / 24000)) ≤ (1.30899709e-4 : ℝ) := hs1.2
  have hs2 := sin_bounds_of_le b2l b2h (by norm_num) (by norm_num)
  have hs2L : (1.1606437e-4 : ℝ) ≤ Real.sin (Real.pi * (133 / 3600000)) :=
    le_trans (by norm_num) hs2.1
  have hs2U : Real.sin (Real.pi * (133 / 3600000)) ≤ (1.16064409e-4 : ℝ) := hs2.2
  have hc1 := cos_bounds_of_le b3l b3h (by norm_num) (by norm_num)
  have hc1L : (0.953524999 : ℝ) ≤ Real.cos (Real.pi * (1159 / 12000)) :=
    le_trans (by norm_num) hc1.1
  have hc1U : Real.cos (Real.pi * (1159 / 12000)) ≤ (0.954407982 : ℝ) :=
    le_trans hc1.2 (by norm_num)
  have hc2 := cos_bounds_of_le b4l b4h (by norm_num) (by norm_num)
  have hc2L : (0.953444002 : ℝ) ≤ Real.cos (Real.pi * (29 / 300)) :=
    le_trans (by norm_num) hc2.1
  have hc2U : Real.cos (Real.pi * (29 / 300)) ≤ (0.954330037 : ℝ) :=
    le_trans hc2.2 (by norm_num)
  have hs1P : (0:ℝ) ≤ Real.sin (Real.pi * (1 / 24000)) :=
    le_trans (by norm_num) hs1L
  have hs2P : (0:ℝ) ≤ Real.sin (Real.pi * (133 / 3600000)) :=
    le_trans (by norm_num) hs2L
  have hc1P : (0:ℝ) ≤ Real.cos (Real.pi * (1159 / 12000)) :=
    le_trans (by norm_num) hc1L
  have hc2P : (0:ℝ) ≤ Real.cos (Real.pi * (29 / 300)) :=
    le_trans (by norm_num) hc2L
  -- Squares and products.
  have hs1sqL : (1.71347222e-8 : ℝ) ≤
      Real.sin (Real.pi * (1 / 24000)) * Real.sin (Real.pi * (1 / 24000)) :=
    le_trans (by norm_num)
      (mul_le_mul hs1L hs1L (by norm_num) hs1P)
  have hs1sqU : Real.sin (Real.pi * (1 / 24000)) * Real.sin (Real.pi * (1 / 24000)) ≤
      (1.71347339e-8 : ℝ) :=
    le_trans (mul_le_mul hs1U hs1U hs1P (by norm_num)) (by norm_num)
  have hs2sqL : (1.34709379e-8 : ℝ) ≤
      Real.sin (Real.pi * (133 / 3600000)) * Real.sin (Real.pi * (133 / 3600000)) :=
    le_trans (by norm_num)
      (mul_le_mul hs2L hs2L (by norm_num) hs2P)
  have hs2sqU : Real.sin (Real.pi * (133 / 3600000)) *
      Real.sin (Real.pi * (133 / 3600000)) ≤ (1.34709471e-8 : ℝ) :=
    le_trans (mul_le_mul hs2U hs2U hs2P (by norm_num)) (by norm_num)
  have hccL : (0.909132691 : ℝ) ≤
      Real.cos (Real.pi * (1159 / 12000)) * Real.cos (Real.pi * (29 / 300)) :=
    le_trans (by norm_num)
      (mul_le_mul hc1L hc2L (by norm_num) hc1P)
  have hccU : Real.cos (Real.pi * (1159 / 12000)) * Real.cos (Real.pi * (29 / 300)) ≤
      (0.910820205 : ℝ) :=
    le_trans (mul_le_mul hc1U hc2U hc2P (by norm_num)) (by norm_num)
  have hccP : (0:ℝ) ≤
      Real.cos (Real.pi * (1159 / 12000)) * Real.cos (Real.pi * (29 / 300)) :=
    le_trans (by norm_num) hccL
  have hprodL : (1.224687e-8 : ℝ) ≤
      (Real.cos (Real.pi * (1159 / 12000)) * Real.cos (Real.pi * (29 / 300))) *
        (Real.sin (Real.pi * (133 / 3600000)) * Real.sin (Real.pi * (133 / 3600000))) :=
    le_trans (by norm_num)
      (mul_le_mul hccL hs2sqL (by norm_num) hccP)
  have hprodU : (Real.cos (Real.pi * (1159 / 12000)) * Real.cos (Real.pi * (29 / 300))) *
      (Real.sin (Real.pi * (133 / 3600000)) * Real.sin (Real.pi * (133 / 3600000))) ≤
        (1.22696108e-8 : ℝ) :=
    le_trans (mul_le_mul hccU hs2sqU
      (le_trans (by norm_num) hs2sqL) (by norm_num)) (by norm_num)
  -- Enclosure of the haversine's `a`.
  have hassoc : Real.cos (Real.pi * (1159 / 12000)) * Real.cos (Real.pi * (29 / 300)) *
      Real.sin (Real.pi * (133 / 3600000)) * Real.sin (Real.pi * (133 / 3600000)) =
        (Real.cos (Real.pi * (1159 / 12000)) * Real.cos (Real.pi * (29 / 300))) *
          (Real.sin (Real.pi * (133 / 3600000)) *
            Real.sin (Real.pi * (133 / 3600000))) := by
    ring
  have hAL : (2.93815922e-8 : ℝ) ≤
      Real.sin (Real.pi * (1 / 24000)) * Real.sin (Real.pi * (1 / 24000)) +
        Real.cos (Real.pi * (1159 / 12000)) * Real.cos (Real.pi * (29 / 300)) *
          Real.sin (Real.pi * (133 / 3600000)) *
            Real.sin (Real.pi * (133 / 3600000)) := by
    rw [hassoc]
    linarith
  have hAU : Real.sin (Real.pi * (1 / 24000)) * Real.sin (Real.pi * (1 / 24000)) +
      Real.cos (Real.pi * (1159 / 12000)) * Real.cos (Real.pi * (29 / 300)) *
        Real.sin (Real.pi * (133 / 3600000)) *
          Real.sin (Real.pi * (133 / 3600000)) ≤ (2.94043447e-8 : ℝ) := by
    rw [hassoc]
    linarith
  -- Rewrite the distance into the analysed form.
  have hD : calculate_distance 17.3850 78.4867 17.4000 78.5000 =
      6371 * (2 * atan2
        (Real.sqrt (Real.sin (toRadians (17.4000 - 17.3850) / 2) *
            Real.sin (toRadians (17.4000 - 17.3850) / 2) +
          Real.cos (toRadians 17.3850) * Real.cos (toRadians 17.4000) *
            Real.sin (toRadians (78.5000 - 78.4867) / 2) *
              Real.sin (toRadians (78.5000 - 78.4867) / 2)))
        (Real.sqrt (1 - (Real.sin (toRadians (17.4000 - 17.3850) / 2) *
            Real.sin (toRadians (17.4000 - 17.3850) / 2) +
          Real.cos (toRadians 17.3850) * Real.cos (toRadians 17.4000) *
            Real.sin (toRadians (78.5000 - 78.4867) / 2) *
              Real.sin (toRadians (78.5000 - 78.4867) / 2))))) := rfl
  rw [hD, e1, e2, e3, e4]
  -- Work with the enclosed `a`.
  have hA0 : (0:ℝ) < Real.sin (Real.pi * (1 / 24000)) * Real.sin (Real.pi * (1 / 24000)) +
      Real.cos (Real.pi * (1159 / 12000)) * Real.cos (Real.pi * (29 / 300)) *
        Real.sin (Real.pi * (133 / 3600000)) *
          Real.sin (Real.pi * (133 / 3600000)) :=
    lt_of_lt_of_le (by norm_num) hAL
  have hA1 : Real.sin (Real.pi * (1 / 24000)) * Real.sin (Real.pi * (1 / 24000)) +
      Real.cos (Real.pi * (1159 / 12000)) * Real.cos (Real.pi * (29 / 300)) *
        Real.sin (Real.pi * (133 / 3600000)) *
          Real.sin (Real.pi * (133 / 3600000)) < 1 :=
    lt_of_le_of_lt hAU (by norm_num)
  have hxpos : 0 < Real.sqrt (1 - (Real.sin (Real.pi * (1 / 24000)) *
      Real.sin (Real.pi * (1 / 24000)) +
        Real.cos (Real.pi * (1159 / 12000)) * Real.cos (Real.pi * (29 / 300)) *
          Real.sin (Real.pi * (133 / 3600000)) *
            Real.sin (Real.pi * (133 / 3600000)))) :=
    Real.sqrt_pos.mpr (by linarith)
  rw [show atan2 _ _ = Real.arctan _ from by
    unfold atan2
    rw [if_pos hxpos]]
  have hband := arctan_ratio_bounds hA0 hA1
  -- √a enclosure.
  have hq1 : (1.71410595e-4 : ℝ) ≤ Real.sqrt (Real.sin (Real.pi * (1 / 24000)) *
      Real.sin (Real.pi * (1 / 24000)) +
        Real.cos (Real.pi * (1159 / 12000)) * Real.cos (Real.pi * (29 / 300)) *
          Real.sin (Real.pi * (133 / 3600000)) *
            Real.sin (Real.pi * (133 / 3600000))) := by
    refine le_trans ?_ (Real.sqrt_le_sqrt hAL)
    rw [Real.le_sqrt (by norm_num) (by norm_num)]
    norm_num
  have hq2 : Real.sqrt (Real.sin (Real.pi * (1 / 24000)) *
      Real.sin (Real.pi * (1 / 24000)) +
        Real.cos (Real.pi * (1159 / 12000)) * Real.cos (Real.pi * (29 / 300)) *
          Real.sin (Real.pi * (133 / 3600000)) *
            Real.sin (Real.pi * (133 / 3600000))) ≤ (1.71476951e-4 : ℝ) := by
    refine le_trans (Real.sqrt_le_sqrt hAU) ?_
    refine le_trans (Real.sqrt_le_sqrt
      (show (2.94043447e-8 : ℝ) ≤ (1.71476951e-4 : ℝ) ^ 2 from by norm_num)) ?_
    rw [Real.sqrt_sq (by norm_num)]
  have hr : (0.9999999 : ℝ) ≤ Real.sqrt (1 - (Real.sin (Real.pi * (1 / 24000)) *
      Real.sin (Real.pi * (1 / 24000)) +
        Real.cos (Real.pi * (1159 / 12000)) * Real.cos (Real.pi * (29 / 300)) *
          Real.sin (Real.pi * (133 / 3600000)) *
            Real.sin (Real.pi * (133 / 3600000)))) := by
    have h3 : ((0.9999999 : ℝ)) ^ 2 ≤ 1 - (Real.sin (Real.pi * (1 / 24000)) *
        Real.sin (Real.pi * (1 / 24000)) +
          Real.cos (Real.pi * (1159 / 12000)) * Real.cos (Real.pi * (29 / 300)) *
            Real.sin (Real.pi * (133 / 3600000)) *
              Real.sin (Real.pi * (133 / 3600000))) := by
      have hsq : ((0.9999999 : ℝ)) ^ 2 = 0.99999980000001 := by norm_num
      rw [hsq]
      linarith [hAU]
    refine le_trans (le_of_eq (Real.sqrt_sq (by norm_num)).symm)
      (Real.sqrt_le_sqrt h3)
  constructor
  · have harcL := lt_of_le_of_lt hq1 hband.1
    linarith [harcL]
  · have hdiv : Real.sqrt (Real.sin (Real.pi * (1 / 24000)) *
        Real.sin (Real.pi * (1 / 24000)) +
          Real.cos (Real.pi * (1159 / 12000)) * Real.cos (Real.pi * (29 / 300)) *
            Real.sin (Real.pi * (133 / 3600000)) *
              Real.sin (Real.pi * (133 / 3600000))) /
        Real.sqrt (1 - (Real.sin (Real.pi * (1 / 24000)) *
          Real.sin (Real.pi * (1 / 24000)) +
            Real.cos (Real.pi * (1159 / 12000)) * Real.cos (Real.pi * (29 / 300)) *
              Real.sin (Real.pi * (133 / 3600000)) *
                Real.sin (Real.pi * (133 / 3600000)))) ≤
        (1.71476951e-4 : ℝ) / (0.9999999 : ℝ) :=
      div_le_div₀ (by norm_num) hq2 (by norm_num) hr
    have harcU := le_trans hband.2 hdiv
    linarith [harcU]

/-- C9 counterexample: the spec's asserted value 1.86 km is wrong for
the repository's haversine — the distance at those inputs is ≈ 2.1849 km,
which differs from 1.86 by more than 0.3 km, so no small tolerance can
make the assertion pass. -/
theorem example_distance_not_1_86 :
    ¬ |calculate_distance 17.3850 78.4867 17.4000 78.5000 - 1.86| ≤ 0.3 := by
  have h := example_distance_bounds
  rw [abs_le]
  rintro ⟨-, hx⟩
  linarith [h.1]

/-- C9 (amended): the haversine distance at `(17.3850, 78.4867)` and
`(17.4000, 78.5000)` is approximately 2.1849 km (within 0.001 of
2.1845), not 1.86 km. -/
theorem example_distance_approx :
    |calculate_distance 17.3850 78.4867 17.4000 78.5000 - 2.1845| < 0.001 := by
  have h := example_distance_bounds
  rw [abs_lt]
  exact ⟨by linarith [h.1], by linarith [h.2]⟩

end Haversine
